import Mathlib

/-!
Shallow embedding of `src/django_adaptation.py`, a clean-architecture demo
exposing one read endpoint: fetch a `Person` by reference through a view,
an interactor, and a cache-aside repository.

Naming convention: the specification writes identifiers in a
language-neutral camelCase (`getPerson`, `setParams`, `departmentId`,
`EntityNotFound`); the source uses `get_person`, `set_params`,
`department_id`, `EntityDoesNotExist`.  This file keeps the source's names.
-/

/-- The domain entity `Person` (source lines 5–16): an immutable value
object with a `reference` identifier and a `department_id`, both set at
construction and never mutated. -/
structure Person where
  reference : String
  department_id : Int
deriving DecidableEq, Repr

/-- The exceptions that can flow through this program:
`EntityDoesNotExist` (raised by the database store, source line 97; the
spec calls it `EntityNotFound`), `AttributeError` (Python raises it when
reading an attribute that was never assigned, such as `self.reference`
before `set_params`), and a catch-all constructor for every other
exception kind. -/
inductive Exn where
  | entityDoesNotExist
  | attributeError (name : String)
  | other (msg : String)
deriving DecidableEq, Repr

/-- Modelled from the spec: the cache store collaborator.  The class
`PersonCacheRepo` is instantiated at source line 130 but never defined in
the repository; spec §6 gives its interface:
`getPerson(reference) -> Person|None` and `savePerson(Person) -> void`,
keyed by reference.  `lookup` is the current key→Person map; `saved` logs
every `save_person` call (most recent first), so that "no cache write
occurs" is a statable property. -/
structure CacheState where
  lookup : String → Option Person
  saved : List Person

/-- Cache store `get_person`: plain key-value lookup. -/
def CacheState.get_person (c : CacheState) (reference : String) : Option Person :=
  c.lookup reference

/-- Cache store `save_person`: store the person under its own reference
(the source passes the whole person, source line 82) and log the write. -/
def CacheState.save_person (c : CacheState) (p : Person) : CacheState :=
  { lookup := fun r => if r = p.reference then some p else c.lookup r,
    saved := p :: c.saved }

/-- `PersonRepo` (source lines 72–84): holds the database store and the
cache store.  The database store collaborator is a function
`String → Except Exn Person`; `.error e` models a raised exception. -/
structure PersonRepo where
  db_repo : String → Except Exn Person
  cache_repo : CacheState

/-- The observable outcome of one `PersonRepo.get_person` call: the value
returned (or the exception that propagated), the cache store state after
the call, and how many times the database store's `get_person` ran. -/
structure RepoResult where
  result : Except Exn Person
  cache : CacheState
  dbCalls : Nat

/-- `PersonRepo.get_person` (source lines 77–84): consult the cache; on a
hit return the cached person at once; on a miss query the database (an
exception from it propagates unmodified and no cache write happens), save
the found person into the cache, and return it. -/
def PersonRepo.get_person (self : PersonRepo) (reference : String) : RepoResult :=
  match self.cache_repo.get_person reference with
  | some person => { result := .ok person, cache := self.cache_repo, dbCalls := 0 }
  | none =>
    match self.db_repo reference with
    | .ok person =>
        { result := .ok person, cache := self.cache_repo.save_person person,
          dbCalls := 1 }
    | .error e => { result := .error e, cache := self.cache_repo, dbCalls := 1 }

/-- `UseCaseInteractor` (source lines 26–35).  Python's `__init__` assigns
only `person_repo`; the `reference` attribute does not exist until
`set_params` runs, modelled by `Option String` where `none` means "never
assigned".  The repository dependency is abstracted as the function the
interactor calls. -/
structure UseCaseInteractor where
  person_repo : String → Except Exn Person
  reference : Option String

/-- `UseCaseInteractor.__init__(person_repo)` (source lines 27–28): only
`person_repo` is assigned; `reference` stays unassigned. -/
def UseCaseInteractor.init (person_repo : String → Except Exn Person) :
    UseCaseInteractor :=
  { person_repo := person_repo, reference := none }

/-- `set_params` (source lines 30–32): assign `reference` and return the
(updated) interactor itself, enabling chaining. -/
def UseCaseInteractor.set_params (self : UseCaseInteractor) (reference : String) :
    UseCaseInteractor :=
  { self with reference := some reference }

/-- `execute` (source lines 34–35): a single call to
`person_repo.get_person` with the stored reference.  Reading the
never-assigned attribute raises `AttributeError`.  The second component
logs the reference of every repository call the execution makes. -/
def UseCaseInteractor.execute (self : UseCaseInteractor) :
    Except Exn Person × List String :=
  match self.reference with
  | none => (.error (.attributeError "reference"), [])
  | some r => (self.person_repo r, [r])

/-- The values appearing in a response body dictionary: strings and
integers. -/
inductive JValue where
  | str (s : String)
  | int (n : Int)
deriving DecidableEq, Repr

/-- A response body: a Python dict modelled as an association list of
string keys. -/
abbrev Body := List (String × JValue)

/-- `PersonSerializer.serialize` (source lines 44–50): the two-entry dict
`{'reference': person.reference, 'department_id': person.department_id}`. -/
def PersonSerializer.serialize (person : Person) : Body :=
  [("reference", .str person.reference),
   ("department_id", .int person.department_id)]

/-- `PersonView` (source lines 53–69): holds the interactor. -/
structure PersonView where
  get_person_interactor : UseCaseInteractor

/-- `PersonView.get` (source lines 57–69): run
`interactor.set_params(reference).execute()` inside a try block;
`EntityDoesNotExist` is caught and becomes the fixed 404 body; on success
the serialized person is returned with status 200; any other exception
propagates out of `get` unhandled (modelled as `.error e`). -/
def PersonView.get (self : PersonView) (reference : String) :
    Except Exn (Body × Nat) :=
  match ((self.get_person_interactor.set_params reference).execute).1 with
  | .ok person => .ok (PersonSerializer.serialize person, 200)
  | .error .entityDoesNotExist =>
      .ok ([("error", .str "Person does not exist!")], 404)
  | .error e => .error e

/-! Concrete objects used by the witnesses. -/

/-- A sample person, the one of spec §8 item 4. -/
def samplePerson : Person := { reference := "abc", department_id := 5 }

/-- A cache holding exactly `samplePerson`, with an empty write log. -/
def sampleCache : CacheState :=
  { lookup := fun r => if r = "abc" then some samplePerson else none,
    saved := [] }

/-- An empty cache with an empty write log. -/
def emptyCache : CacheState := { lookup := fun _ => none, saved := [] }

/-- A database store holding exactly `samplePerson`. -/
def dbAbc : String → Except Exn Person :=
  fun r => if r = "abc" then .ok samplePerson else .error .entityDoesNotExist

/-- A database store that holds nothing: every lookup raises
`EntityDoesNotExist`. -/
def dbEmpty : String → Except Exn Person :=
  fun _ => .error .entityDoesNotExist

/-! The claims. -/

/-- C1: for every reference for which the cache store returns a Person,
`PersonRepo.get_person` returns that cached Person, leaves the cache
unchanged, and never invokes the database store's `get_person`
(`dbCalls = 0`). -/
theorem personRepo_cache_hit (repo : PersonRepo) (ref : String) (p : Person)
    (h : repo.cache_repo.get_person ref = some p) :
    repo.get_person ref
      = { result := .ok p, cache := repo.cache_repo, dbCalls := 0 } := by
  simp [PersonRepo.get_person, h]

/-- Witness for C1 at a concrete cache hit. -/
theorem personRepo_cache_hit_witness :
    sampleCache.get_person "abc" = some samplePerson ∧
    (PersonRepo.mk dbEmpty sampleCache).get_person "abc"
      = { result := .ok samplePerson, cache := sampleCache, dbCalls := 0 } :=
  ⟨by decide, personRepo_cache_hit (PersonRepo.mk dbEmpty sampleCache) "abc"
      samplePerson (by decide)⟩

/-- C2: for every reference absent from the cache but found by the
database store, `PersonRepo.get_person` returns that Person, and the cache
afterwards is exactly the old cache with that same Person written through
`save_person`: the write is logged and a subsequent cache lookup of the
person's reference finds it. -/
theorem personRepo_cache_miss_db_hit (repo : PersonRepo) (ref : String)
    (p : Person)
    (hc : repo.cache_repo.get_person ref = none)
    (hd : repo.db_repo ref = .ok p) :
    (repo.get_person ref).result = .ok p ∧
    (repo.get_person ref).cache = repo.cache_repo.save_person p ∧
    ((repo.get_person ref).cache).saved = p :: repo.cache_repo.saved ∧
    ((repo.get_person ref).cache).get_person p.reference = some p := by
  have hc' : repo.cache_repo.lookup ref = none := hc
  simp [PersonRepo.get_person, hc', hd, CacheState.save_person,
    CacheState.get_person]

/-- Witness for C2: an empty cache and a database holding `samplePerson`. -/
theorem personRepo_cache_miss_db_hit_witness :
    emptyCache.get_person "abc" = none ∧
    dbAbc "abc" = Except.ok samplePerson ∧
    ((PersonRepo.mk dbAbc emptyCache).get_person "abc").result
        = .ok samplePerson ∧
    ((PersonRepo.mk dbAbc emptyCache).get_person "abc").cache
        = emptyCache.save_person samplePerson ∧
    (((PersonRepo.mk dbAbc emptyCache).get_person "abc").cache).saved
        = [samplePerson] ∧
    (((PersonRepo.mk dbAbc emptyCache).get_person "abc").cache).get_person
        samplePerson.reference = some samplePerson := by
  refine ⟨by decide, by rfl, ?_⟩
  have h := personRepo_cache_miss_db_hit (PersonRepo.mk dbAbc emptyCache)
    "abc" samplePerson (by decide) (by rfl)
  exact ⟨h.1, h.2.1, h.2.2.1, h.2.2.2⟩

/-- C3: for every reference absent from the cache for which the database
store raises `EntityDoesNotExist`, `PersonRepo.get_person` propagates that
same signal unmodified and the cache state (including the write log) is
unchanged: no `save_person` call happened. -/
theorem personRepo_not_found (repo : PersonRepo) (ref : String)
    (hc : repo.cache_repo.get_person ref = none)
    (hd : repo.db_repo ref = .error .entityDoesNotExist) :
    repo.get_person ref
      = { result := .error .entityDoesNotExist, cache := repo.cache_repo,
          dbCalls := 1 } := by
  simp [PersonRepo.get_person, hc, hd]

/-- Witness for C3: an empty cache and an empty database. -/
theorem personRepo_not_found_witness :
    emptyCache.get_person "xyz" = none ∧
    dbEmpty "xyz" = Except.error Exn.entityDoesNotExist ∧
    (PersonRepo.mk dbEmpty emptyCache).get_person "xyz"
      = { result := .error .entityDoesNotExist, cache := emptyCache,
          dbCalls := 1 } :=
  ⟨by decide, by rfl,
    personRepo_not_found (PersonRepo.mk dbEmpty emptyCache) "xyz"
      (by decide) (by rfl)⟩

/-- C4: one `PersonRepo.get_person` call invokes the database store's
`get_person` exactly zero times on a cache hit and exactly once on a cache
miss; in particular at most once. -/
theorem personRepo_at_most_one_db_call (repo : PersonRepo) (ref : String) :
    (repo.get_person ref).dbCalls
      = (match repo.cache_repo.get_person ref with
          | some _ => 0
          | none => 1) ∧
    (repo.get_person ref).dbCalls ≤ 1 := by
  unfold PersonRepo.get_person
  cases hc : repo.cache_repo.get_person ref with
  | some p => simp
  | none =>
    cases hd : repo.db_repo ref with
    | ok p => simp
    | error e => simp

/-- C5: whenever the repository call raises `EntityDoesNotExist` (the
spec's `EntityNotFound`), `PersonView.get` returns the body
`{'error': 'Person does not exist!'}` with status 404. -/
theorem personView_not_found (i : UseCaseInteractor) (ref : String)
    (h : i.person_repo ref = .error .entityDoesNotExist) :
    (PersonView.mk i).get ref
      = .ok ([("error", .str "Person does not exist!")], 404) := by
  simp [PersonView.get, UseCaseInteractor.set_params,
    UseCaseInteractor.execute, h]

/-- Witness for C5: a view over an empty database. -/
theorem personView_not_found_witness :
    (UseCaseInteractor.init dbEmpty).person_repo "missing"
      = Except.error Exn.entityDoesNotExist ∧
    (PersonView.mk (UseCaseInteractor.init dbEmpty)).get "missing"
      = .ok ([("error", .str "Person does not exist!")], 404) :=
  ⟨by rfl, personView_not_found (UseCaseInteractor.init dbEmpty) "missing"
      (by rfl)⟩

/-- C6: whenever the repository call returns a person, `PersonView.get`
returns the serialized person with status 200.  (The spec's `departmentId`
is the source's `department_id` serializer key.) -/
theorem personView_success (i : UseCaseInteractor) (ref : String) (p : Person)
    (h : i.person_repo ref = .ok p) :
    (PersonView.mk i).get ref = .ok (PersonSerializer.serialize p, 200) := by
  simp [PersonView.get, UseCaseInteractor.set_params,
    UseCaseInteractor.execute, h]

/-- Witness for C6, the spec's concrete instance: the repository returns
`Person(reference='abc', department_id=5)` and the view yields that body
with status 200. -/
theorem personView_success_witness :
    (UseCaseInteractor.init dbAbc).person_repo "abc" = Except.ok samplePerson ∧
    (PersonView.mk (UseCaseInteractor.init dbAbc)).get "abc"
      = .ok ([("reference", .str "abc"), ("department_id", .int 5)], 200) :=
  ⟨by rfl, personView_success (UseCaseInteractor.init dbAbc) "abc"
      samplePerson (by rfl)⟩

/-- C7: `PersonSerializer.serialize` is the pure two-key mapping: for every
pair `(r, d)` it yields exactly the entries `reference ↦ r` and
`department_id ↦ d` (the spec's `departmentId`), with no validation and no
omitted field: both keys are present with the given values and the dict
has exactly two entries. -/
theorem personSerializer_serialize_spec (r : String) (d : Int) :
    PersonSerializer.serialize { reference := r, department_id := d }
      = [("reference", .str r), ("department_id", .int d)] ∧
    List.lookup "reference"
      (PersonSerializer.serialize { reference := r, department_id := d })
      = some (.str r) ∧
    List.lookup "department_id"
      (PersonSerializer.serialize { reference := r, department_id := d })
      = some (.int d) ∧
    (PersonSerializer.serialize { reference := r, department_id := d }).length
      = 2 :=
  ⟨rfl, rfl, rfl, rfl⟩

/-- Folding `set_params` over any list of references never changes the
repository held by the interactor. -/
theorem foldl_set_params_person_repo (rs : List String)
    (i : UseCaseInteractor) :
    (rs.foldl UseCaseInteractor.set_params i).person_repo = i.person_repo := by
  induction rs generalizing i with
  | nil => rfl
  | cons a t ih => simpa [UseCaseInteractor.set_params] using ih (i.set_params a)

/-- C8: `set_params` returns the interactor itself with only the
`reference` attribute updated (so calls chain), and after any sequence of
earlier `set_params` calls, one `execute` makes exactly one repository
`get_person` call, with the most recently configured reference. -/
theorem interactor_chaining (i : UseCaseInteractor) (rs : List String)
    (r : String) :
    (i.set_params r).person_repo = i.person_repo ∧
    (i.set_params r).reference = some r ∧
    ((rs.foldl UseCaseInteractor.set_params i).set_params r).execute
      = (i.person_repo r, [r]) := by
  refine ⟨rfl, rfl, ?_⟩
  simp [UseCaseInteractor.execute, UseCaseInteractor.set_params,
    foldl_set_params_person_repo rs i]

/-- C9: `PersonView.get` catches exactly the `EntityDoesNotExist` kind:
for every exception `e` the repository call raises, the result is the 404
body when `e` is `EntityDoesNotExist` and the exception propagating
unhandled otherwise. -/
theorem personView_catches_only_entityDoesNotExist (i : UseCaseInteractor)
    (ref : String) (e : Exn) (h : i.person_repo ref = .error e) :
    (PersonView.mk i).get ref
      = if e = Exn.entityDoesNotExist
        then .ok ([("error", .str "Person does not exist!")], 404)
        else .error e := by
  cases e with
  | entityDoesNotExist =>
      simp [PersonView.get, UseCaseInteractor.set_params,
        UseCaseInteractor.execute, h]
  | attributeError n =>
      simp [PersonView.get, UseCaseInteractor.set_params,
        UseCaseInteractor.execute, h]
  | other m =>
      simp [PersonView.get, UseCaseInteractor.set_params,
        UseCaseInteractor.execute, h]

/-- Witness for C9: a repository failure other than `EntityDoesNotExist`
propagates out of the view. -/
theorem personView_catches_only_entityDoesNotExist_witness :
    (UseCaseInteractor.init
        (fun _ => .error (.other "boom"))).person_repo "abc"
      = Except.error (Exn.other "boom") ∧
    (PersonView.mk (UseCaseInteractor.init
        (fun _ => .error (.other "boom")))).get "abc"
      = Except.error (Exn.other "boom") :=
  ⟨by rfl, personView_catches_only_entityDoesNotExist
      (UseCaseInteractor.init (fun _ => .error (.other "boom"))) "abc"
      (Exn.other "boom") (by rfl)⟩

/-- C10: on a freshly constructed interactor `execute` fails with
`AttributeError` (the `reference` attribute is never assigned in
`__init__`, so it makes no repository call), and every `execute` that
returns a person has an assigned `reference`, i.e. was preceded by at
least one `set_params` call. -/
theorem interactor_execute_requires_set_params
    (repo : String → Except Exn Person) (i : UseCaseInteractor) (p : Person)
    (l : List String) (h : i.execute = (.ok p, l)) :
    (UseCaseInteractor.init repo).execute
      = (.error (.attributeError "reference"), []) ∧
    i.reference ≠ none := by
  refine ⟨rfl, fun hnone => ?_⟩
  simp [UseCaseInteractor.execute, hnone] at h

/-- Witness for C10: a successful execution after one `set_params` call,
whose `reference` is indeed assigned. -/
theorem interactor_execute_requires_set_params_witness :
    ((UseCaseInteractor.init dbAbc).set_params "abc").execute
      = (Except.ok samplePerson, ["abc"]) ∧
    ((UseCaseInteractor.init dbAbc).execute
        = (.error (.attributeError "reference"), []) ∧
      ((UseCaseInteractor.init dbAbc).set_params "abc").reference ≠ none) :=
  ⟨by rfl, interactor_execute_requires_set_params dbAbc
      ((UseCaseInteractor.init dbAbc).set_params "abc") samplePerson
      ["abc"] (by rfl)⟩
